import Mathlib

/-!
Verification of the KatanaOpenAssetIO plugin sources
(`KatanaOpenAssetIOPatches.py` and `OpenAssetIOWidgetDelegate.py`).

The plugin stores per-output "preflight" working asset references as child
string parameters of the node's `outputs.preflight` parameter group.  We
embed that group as an association list of (parameter name, string value)
pairs, together with the Katana parameter-API operations the source uses:
`getChild`, `setValue`, `createChildString` and `deleteChild`.
-/

/-- A Katana parameter group: ordered child string parameters. -/
abbrev ParamGroup : Type := List (String × String)

/-- Katana `group.getChild(name)`: the first child parameter named
`name`, as its string value, if any. -/
def paramGetChild : ParamGroup → String → Option String
  | [], _ => none
  | (k, v) :: rest, name => if k = name then some v else paramGetChild rest name

/-- Katana `param.setValue(value, 0)` applied to the child returned by
`getChild(name)`: replace the value of the first child named `name`. -/
def paramSetValue : ParamGroup → String → String → ParamGroup
  | [], _, _ => []
  | (k, v) :: rest, name, value =>
    if k = name then (k, value) :: rest else (k, v) :: paramSetValue rest name value

/-- Katana `group.createChildString(name, value)`: append a new child
string parameter at the end of the group. -/
def paramCreateChildString (g : ParamGroup) (name value : String) : ParamGroup :=
  g ++ [(name, value)]

/-- Katana `group.deleteChild(child)` applied to the child returned by
`getChild(name)`: remove the first child named `name`. -/
def paramDeleteChild : ParamGroup → String → ParamGroup
  | [], _ => []
  | (k, v) :: rest, name =>
    if k = name then rest else (k, v) :: paramDeleteChild rest name

/-- The child names of a group are pairwise distinct.  Katana parameter
groups satisfy this, and every group built by this plugin preserves it. -/
abbrev paramKeysNodup (g : ParamGroup) : Prop :=
  (g.map Prod.fst).Nodup

/-! ### Association-list lemmas for the parameter operations -/

theorem paramGetChild_setValue_self (g : ParamGroup) (name value : String)
    (h : (paramGetChild g name).isSome) :
    paramGetChild (paramSetValue g name value) name = some value := by
  induction g with
  | nil => simp [paramGetChild] at h
  | cons kv rest ih =>
    obtain ⟨k, v⟩ := kv
    by_cases hk : k = name
    · simp [paramGetChild, paramSetValue, hk]
    · simp [paramGetChild, paramSetValue, hk] at h ⊢
      exact ih h

theorem paramGetChild_setValue_other (g : ParamGroup) (name value m : String)
    (h : m ≠ name) :
    paramGetChild (paramSetValue g name value) m = paramGetChild g m := by
  induction g with
  | nil => rfl
  | cons kv rest ih =>
    obtain ⟨k, v⟩ := kv
    by_cases hk : k = name
    · subst hk
      simp [paramGetChild, paramSetValue, Ne.symm h]
    · simp [paramGetChild, paramSetValue, hk]
      by_cases hm : k = m
      · simp [hm]
      · simp [hm, ih]

theorem paramGetChild_append_self (g : ParamGroup) (name value : String)
    (h : paramGetChild g name = none) :
    paramGetChild (paramCreateChildString g name value) name = some value := by
  induction g with
  | nil => simp [paramCreateChildString, paramGetChild]
  | cons kv rest ih =>
    obtain ⟨k, v⟩ := kv
    by_cases hk : k = name
    · simp [paramGetChild, hk] at h
    · simp [paramGetChild, hk] at h
      simpa [paramCreateChildString, paramGetChild, hk] using ih h

theorem paramGetChild_append_other (g : ParamGroup) (name value m : String)
    (h : m ≠ name) :
    paramGetChild (paramCreateChildString g name value) m = paramGetChild g m := by
  induction g with
  | nil => simp [paramCreateChildString, paramGetChild, Ne.symm h]
  | cons kv rest ih =>
    obtain ⟨k, v⟩ := kv
    by_cases hm : k = m
    · simp [paramCreateChildString, paramGetChild, hm]
    · simpa [paramCreateChildString, paramGetChild, hm] using ih

theorem paramGetChild_deleteChild_other (g : ParamGroup) (name m : String)
    (h : m ≠ name) :
    paramGetChild (paramDeleteChild g name) m = paramGetChild g m := by
  induction g with
  | nil => rfl
  | cons kv rest ih =>
    obtain ⟨k, v⟩ := kv
    by_cases hk : k = name
    · subst hk
      simp [paramGetChild, paramDeleteChild, Ne.symm h]
    · simp [paramGetChild, paramDeleteChild, hk]
      by_cases hm : k = m
      · simp [hm]
      · simp [hm, ih]

theorem paramGetChild_eq_none_of_not_mem (g : ParamGroup) (name : String)
    (h : name ∉ g.map Prod.fst) : paramGetChild g name = none := by
  induction g with
  | nil => rfl
  | cons kv rest ih =>
    obtain ⟨k, v⟩ := kv
    simp only [List.map_cons, List.mem_cons, not_or] at h
    simp only [paramGetChild, if_neg (Ne.symm h.1)]
    exact ih h.2

theorem paramGetChild_deleteChild_self (g : ParamGroup) (name : String)
    (h : paramKeysNodup g) :
    paramGetChild (paramDeleteChild g name) name = none := by
  induction g with
  | nil => rfl
  | cons kv rest ih =>
    obtain ⟨k, v⟩ := kv
    unfold paramKeysNodup at h
    simp only [List.map_cons, List.nodup_cons] at h
    obtain ⟨hknot, hrest⟩ := h
    by_cases hk : k = name
    · subst hk
      simp only [paramDeleteChild, if_pos rfl]
      exact paramGetChild_eq_none_of_not_mem rest _ hknot
    · simp only [paramDeleteChild, if_neg hk, paramGetChild, if_neg hk]
      exact ih hrest

/-! ### The node model

The only node state the plugin reads or mutates is the `outputs.preflight`
parameter group (`KatanaOpenAssetIOPatches.py`,
`OpenAssetIOWidgetDelegate.py`).  A `Node` records that group: `none` means
the group parameter does not exist yet. -/

structure Node where
  preflight : Option ParamGroup
deriving DecidableEq

/-- Katana `node.getParameter("outputs.preflight.<name>")`: the child of
the preflight group named `name`, when the group exists. -/
def Node.getPreflightParameter (node : Node) (name : String) : Option String :=
  match node.preflight with
  | none => none
  | some g => paramGetChild g name

/-- The output-descriptor record returned by the original
`PreCreateProductAndLocation` / `PostCreateProductAndLocation` when the
output is an asset ID: its `"outputName"` and `"assetId"` entries. -/
structure PublishOutputInfo where
  outputName : String
  assetId : String
deriving DecidableEq

/-- `PreCreateProductAndLocation` from `KatanaOpenAssetIOPatches.py`.

The call to the original host implementation is modelled by its result
`output_info : Option PublishOutputInfo` (`None` when the output is not an
asset ID).  Returns the mutated node together with the value the wrapper
returns. -/
def PreCreateProductAndLocation (node : Node)
    (output_info : Option PublishOutputInfo) : Node × Option PublishOutputInfo :=
  match output_info with
  | none => (node, none)
  | some info =>
    let output_name := info.outputName
    let preflight_asset_id := info.assetId
    -- `outputs_param.getChild("preflight")`, creating the group if absent.
    let preflight_param : ParamGroup :=
      match node.preflight with
      | none => []
      | some g => g
    let preflight_param' : ParamGroup :=
      if (paramGetChild preflight_param output_name).isSome then
        paramSetValue preflight_param output_name preflight_asset_id
      else
        paramCreateChildString preflight_param output_name preflight_asset_id
    ({ preflight := some preflight_param' }, some info)

/-- `PostCreateProductAndLocation` from `KatanaOpenAssetIOPatches.py`. -/
def PostCreateProductAndLocation (node : Node)
    (output_info : Option PublishOutputInfo) : Node × Option PublishOutputInfo :=
  match output_info with
  | none => (node, none)
  | some info =>
    match node.preflight with
    | none => (node, some info)
    | some preflight_param =>
      match paramGetChild preflight_param info.outputName with
      | none => (node, some info)
      | some _ =>
        ({ preflight := some (paramDeleteChild preflight_param info.outputName) },
         some info)

/-- C1: after `PreCreateProductAndLocation` when the underlying publish-start
call yields an output identifier ⟨N, assetId⟩, the preflight entry keyed by N
holds exactly that working reference — whether the entry was created fresh or
overwrote an existing entry — and the underlying result is returned
unchanged. -/
theorem preCreate_stores_working_reference (node : Node) (n aid : String) :
    (PreCreateProductAndLocation node (some ⟨n, aid⟩)).1.getPreflightParameter n
      = some aid ∧
    (PreCreateProductAndLocation node (some ⟨n, aid⟩)).2 = some ⟨n, aid⟩ := by
  constructor
  · unfold PreCreateProductAndLocation Node.getPreflightParameter
    cases node.preflight with
    | none =>
      by_cases h : (paramGetChild [] n).isSome
      · simp at h
        exact absurd h (by simp [paramGetChild])
      · simp only [h]
        simp [paramGetChild_append_self [] n aid rfl, h]
    | some g =>
      by_cases h : (paramGetChild g n).isSome
      · simp only [h]
        simp [paramGetChild_setValue_self g n aid h, h]
      · simp only [h]
        have hnone : paramGetChild g n = none := by
          cases hg : paramGetChild g n with
          | none => rfl
          | some v => rw [hg] at h; simp at h
        simp [paramGetChild_append_self g n aid hnone, h]
  · rfl

/-- C4: when the underlying publish-finish call yields an output identifier
for N and a preflight entry keyed by N exists, `PostCreateProductAndLocation`
removes exactly that entry: the entry for N is gone, every entry for any
other output name is unchanged, and the underlying result is returned
unchanged. -/
theorem postCreate_deletes_exactly_preflight_entry (node : Node)
    (g : ParamGroup) (n aid v : String)
    (hg : node.preflight = some g)
    (hnodup : paramKeysNodup g)
    (hentry : paramGetChild g n = some v) :
    (PostCreateProductAndLocation node (some ⟨n, aid⟩)).1.getPreflightParameter n
      = none ∧
    (∀ m, m ≠ n →
      (PostCreateProductAndLocation node (some ⟨n, aid⟩)).1.getPreflightParameter m
        = node.getPreflightParameter m) ∧
    (PostCreateProductAndLocation node (some ⟨n, aid⟩)).2 = some ⟨n, aid⟩ := by
  unfold PostCreateProductAndLocation
  simp only [hg, hentry]
  refine ⟨?_, ?_, by trivial⟩
  · simp only [Node.getPreflightParameter]
    exact paramGetChild_deleteChild_self g n hnodup
  · intro m hm
    simp only [Node.getPreflightParameter, hg]
    exact paramGetChild_deleteChild_other g n m hm

/-- Witness for `postCreate_deletes_exactly_preflight_entry` at a concrete
two-entry preflight group. -/
theorem postCreate_deletes_exactly_preflight_entry_witness :
    (Node.mk (some [("beauty", "ref1"), ("depth", "ref2")])).preflight
      = some [("beauty", "ref1"), ("depth", "ref2")] ∧
    paramKeysNodup [("beauty", "ref1"), ("depth", "ref2")] ∧
    paramGetChild [("beauty", "ref1"), ("depth", "ref2")] "beauty" = some "ref1" ∧
    ((PostCreateProductAndLocation
        (Node.mk (some [("beauty", "ref1"), ("depth", "ref2")]))
        (some ⟨"beauty", "work1"⟩)).1.getPreflightParameter "beauty" = none ∧
     (∀ m, m ≠ "beauty" →
       (PostCreateProductAndLocation
          (Node.mk (some [("beauty", "ref1"), ("depth", "ref2")]))
          (some ⟨"beauty", "work1"⟩)).1.getPreflightParameter m
         = (Node.mk (some [("beauty", "ref1"), ("depth", "ref2")])).getPreflightParameter m) ∧
     (PostCreateProductAndLocation
        (Node.mk (some [("beauty", "ref1"), ("depth", "ref2")]))
        (some ⟨"beauty", "work1"⟩)).2 = some ⟨"beauty", "work1"⟩) :=
  ⟨rfl, by decide, rfl,
   postCreate_deletes_exactly_preflight_entry
     (Node.mk (some [("beauty", "ref1"), ("depth", "ref2")]))
     [("beauty", "ref1"), ("depth", "ref2")] "beauty" "work1" "ref1"
     rfl (by decide) rfl⟩

/-! ### The RenderNodeInfo model

`RenderNodeInfo` (from `KatanaOpenAssetIOPatches.py`) carries the output
list `__outputList` — entries `(name, attrs, scope)` — and the node
`__node`.  The per-output `attrs` dictionary holds the `"locationSettings"`
group attribute that the plugin rebuilds via `PyFnAttribute.GroupBuilder`;
its remaining keys are untouched by the plugin and are kept as an opaque
association list. -/

structure OutputAttrs where
  locationSettings : ParamGroup
  otherAttrs : ParamGroup
deriving DecidableEq

/-- One `__outputList` entry: `(name, attrs, scope)`. -/
abbrev OutputEntry : Type := String × OutputAttrs × String

structure RenderNodeInfo where
  outputList : List OutputEntry
  node : Node
deriving DecidableEq

/-- `GroupBuilder` sequence `gb.update(g); gb.set(name, value); gb.build()`:
all entries of `g` are kept, with the entry named `name` overridden to
`value` (appended when absent). -/
def groupBuilderSet (g : ParamGroup) (name value : String) : ParamGroup :=
  if (paramGetChild g name).isSome then
    paramSetValue g name value
  else
    paramCreateChildString g name value

/-- `RenderNodeInfo.__get_output_info_using_preflight_asset_id`.

Looks up `outputs.preflight.<name>` on the node; when absent, calls
`get_output_info` on the untouched attrs; when present, rebuilds
`locationSettings` with `renderLocation` set to the stored working
reference, then calls `get_output_info` on the mutated attrs.  The Python
mutation of the shared `attrs` dictionary is modelled by returning the
attrs value seen by the callback alongside the callback's result. -/
def get_output_info_using_preflight_asset_id {R : Type} (node : Node)
    (name : String) (attrs : OutputAttrs) (get_output_info : OutputAttrs → R) :
    OutputAttrs × R :=
  match node.getPreflightParameter name with
  | none => (attrs, get_output_info attrs)
  | some preflight_asset_id =>
    let patched_location_settings :=
      groupBuilderSet attrs.locationSettings "renderLocation" preflight_asset_id
    let patched_attrs := { attrs with locationSettings := patched_location_settings }
    (patched_attrs, get_output_info patched_attrs)

/-- `RenderNodeInfo.__find_attrs_in_output_list`: the attrs of the first
output-list entry whose name matches. -/
def find_attrs_in_output_list : List OutputEntry → String → Option OutputAttrs
  | [], _ => none
  | (candidate_name, attrs, _scope) :: rest, name =>
    if candidate_name = name then some attrs else find_attrs_in_output_list rest name

/-- Position-aware variant of `__find_attrs_in_output_list`: also returns
the index and scope of the first matching entry, so that the in-place
mutation of that entry's shared attrs dictionary can be modelled as a
list update at that index. -/
def find_output_entry : List OutputEntry → String → Option (Nat × OutputAttrs × String)
  | [], _ => none
  | (candidate_name, attrs, scope) :: rest, name =>
    if candidate_name = name then some (0, attrs, scope)
    else (find_output_entry rest name).map (fun e => (e.1 + 1, e.2))

/-- `RenderNodeInfo.getOutputInfoByIndex`.  The original host
implementation is modelled by `original`, a function of the (possibly
mutated) info object; `none` models the `IndexError` raised by
`self.__outputList[index]` when the index is out of range. -/
def RenderNodeInfo.getOutputInfoByIndex {R : Type}
    (original : RenderNodeInfo → R) (self : RenderNodeInfo) (index : Nat) :
    Option (RenderNodeInfo × R) :=
  match self.outputList[index]? with
  | none => none
  | some (name, attrs, scope) =>
    let r := get_output_info_using_preflight_asset_id self.node name attrs
      (fun a => original
        { self with outputList := self.outputList.set index (name, a, scope) })
    some ({ self with outputList := self.outputList.set index (name, r.1, scope) }, r.2)

/-- `RenderNodeInfo.getOutputInfoByName`.  The original host implementation
is modelled by `original` (a function of the possibly mutated info object
and the requested name); when the name is absent from the output list the
decorated function delegates to it directly, which will raise `KeyError`. -/
def RenderNodeInfo.getOutputInfoByName {R : Type}
    (original : RenderNodeInfo → String → R) (self : RenderNodeInfo)
    (name : String) : RenderNodeInfo × R :=
  match find_output_entry self.outputList name with
  | none => (self, original self name)
  | some (i, attrs, scope) =>
    let r := get_output_info_using_preflight_asset_id self.node name attrs
      (fun a => original
        { self with outputList := self.outputList.set i (name, a, scope) } name)
    ({ self with outputList := self.outputList.set i (name, r.1, scope) }, r.2)

/-! ### Lemmas about the output list -/

theorem list_set_getElem_self {α : Type} (l : List α) (i : Nat) (a : α)
    (h : l[i]? = some a) : l.set i a = l := by
  induction l generalizing i with
  | nil => simp at h
  | cons x xs ih =>
    cases i with
    | zero =>
      simp only [List.getElem?_cons_zero, Option.some.injEq] at h
      simp [h]
    | succ n =>
      simp only [List.getElem?_cons_succ] at h
      simp [List.set, ih n h]

theorem find_output_entry_spec (l : List OutputEntry) (name : String)
    (i : Nat) (attrs : OutputAttrs) (scope : String)
    (h : find_output_entry l name = some (i, attrs, scope)) :
    l[i]? = some (name, attrs, scope) := by
  induction l generalizing i with
  | nil => simp [find_output_entry] at h
  | cons e rest ih =>
    obtain ⟨cname, cattrs, cscope⟩ := e
    by_cases hc : cname = name
    · simp only [find_output_entry, if_pos hc, Option.some.injEq, Prod.mk.injEq] at h
      obtain ⟨h1, h2, h3⟩ := h
      subst hc
      rw [← h1, List.getElem?_cons_zero, h2, h3]
    · simp only [find_output_entry, if_neg hc] at h
      cases hrest : find_output_entry rest name with
      | none => rw [hrest] at h; simp at h
      | some e2 =>
        obtain ⟨j, jattrs, jscope⟩ := e2
        rw [hrest] at h
        simp only [Option.map, Option.some.injEq, Prod.mk.injEq] at h
        obtain ⟨h1, h2, h3⟩ := h
        subst h2
        subst h3
        cases i with
        | zero => omega
        | succ n =>
          have hn : j = n := by omega
          subst hn
          simp only [List.getElem?_cons_succ]
          exact ih j hrest

theorem find_output_entry_eq_none_of_not_mem (l : List OutputEntry) (name : String)
    (h : ∀ e ∈ l, e.1 ≠ name) : find_output_entry l name = none := by
  induction l with
  | nil => rfl
  | cons e rest ih =>
    obtain ⟨cname, cattrs, cscope⟩ := e
    have hc : cname ≠ name := h (cname, cattrs, cscope) (List.mem_cons_self _ _)
    simp only [find_output_entry, if_neg hc]
    rw [ih (fun e he => h e (List.mem_cons_of_mem _ he))]
    rfl

theorem groupBuilderSet_getChild_self (g : ParamGroup) (name value : String) :
    paramGetChild (groupBuilderSet g name value) name = some value := by
  unfold groupBuilderSet
  by_cases h : (paramGetChild g name).isSome
  · rw [if_pos h]
    exact paramGetChild_setValue_self g name value h
  · rw [if_neg h]
    cases hg : paramGetChild g name with
    | none => exact paramGetChild_append_self g name value hg
    | some v => rw [hg] at h; simp at h

theorem groupBuilderSet_getChild_other (g : ParamGroup) (name value m : String)
    (h : m ≠ name) :
    paramGetChild (groupBuilderSet g name value) m = paramGetChild g m := by
  unfold groupBuilderSet
  by_cases hs : (paramGetChild g name).isSome
  · rw [if_pos hs]
    exact paramGetChild_setValue_other g name value m h
  · rw [if_neg hs]
    exact paramGetChild_append_other g name value m h


/-- The attrs value after the preflight patch: `locationSettings` rebuilt
with `renderLocation` set to the stored working reference, all other attrs
keys untouched. -/
def patchedOutputAttrs (attrs : OutputAttrs) (preflight_asset_id : String) : OutputAttrs :=
  { attrs with locationSettings :=
      groupBuilderSet attrs.locationSettings "renderLocation" preflight_asset_id }

/-- The info object after the in-place mutation of the output-list entry at
position `i`: that entry's attrs replaced, everything else untouched. -/
def withOutputAttrsAt (self : RenderNodeInfo) (i : Nat) (name : String)
    (attrs : OutputAttrs) (scope : String) : RenderNodeInfo :=
  { self with outputList := self.outputList.set i (name, attrs, scope) }

/-- C2: when an output has a preflight entry, both decorated resolution
functions (by index and by name) rebuild that output's `locationSettings`
with `renderLocation` set to the stored working reference before invoking
the original resolution on the patched state; every other
`locationSettings` key keeps its original value, the rest of the output's
attrs are untouched, and the output-list entries of all other outputs are
untouched. -/
theorem getOutputInfo_substitutes_preflight_reference {R S : Type}
    (originalIdx : RenderNodeInfo → R) (originalName : RenderNodeInfo → String → S)
    (self : RenderNodeInfo) (index iN : Nat) (name : String)
    (attrs attrsN : OutputAttrs) (scope scopeN : String) (aid : String)
    (hpf : self.node.getPreflightParameter name = some aid)
    (hidx : self.outputList[index]? = some (name, attrs, scope))
    (hfind : find_output_entry self.outputList name = some (iN, attrsN, scopeN)) :
    (RenderNodeInfo.getOutputInfoByIndex originalIdx self index =
       some (withOutputAttrsAt self index name (patchedOutputAttrs attrs aid) scope,
             originalIdx
               (withOutputAttrsAt self index name (patchedOutputAttrs attrs aid) scope)) ∧
     paramGetChild (patchedOutputAttrs attrs aid).locationSettings "renderLocation"
       = some aid ∧
     (∀ k, k ≠ "renderLocation" →
       paramGetChild (patchedOutputAttrs attrs aid).locationSettings k
         = paramGetChild attrs.locationSettings k) ∧
     (patchedOutputAttrs attrs aid).otherAttrs = attrs.otherAttrs ∧
     (∀ j, j ≠ index →
       (withOutputAttrsAt self index name (patchedOutputAttrs attrs aid) scope).outputList[j]?
         = self.outputList[j]?)) ∧
    (RenderNodeInfo.getOutputInfoByName originalName self name =
       (withOutputAttrsAt self iN name (patchedOutputAttrs attrsN aid) scopeN,
        originalName
          (withOutputAttrsAt self iN name (patchedOutputAttrs attrsN aid) scopeN) name) ∧
     paramGetChild (patchedOutputAttrs attrsN aid).locationSettings "renderLocation"
       = some aid ∧
     (∀ k, k ≠ "renderLocation" →
       paramGetChild (patchedOutputAttrs attrsN aid).locationSettings k
         = paramGetChild attrsN.locationSettings k) ∧
     (patchedOutputAttrs attrsN aid).otherAttrs = attrsN.otherAttrs ∧
     (∀ j, j ≠ iN →
       (withOutputAttrsAt self iN name (patchedOutputAttrs attrsN aid) scopeN).outputList[j]?
         = self.outputList[j]?)) := by
  constructor
  · refine ⟨?_, groupBuilderSet_getChild_self _ _ _,
      fun k hk => groupBuilderSet_getChild_other _ _ _ _ hk, rfl,
      fun j hj => List.getElem?_set_ne (Ne.symm hj)⟩
    simp only [RenderNodeInfo.getOutputInfoByIndex, hidx,
      get_output_info_using_preflight_asset_id, hpf]
    rfl
  · refine ⟨?_, groupBuilderSet_getChild_self _ _ _,
      fun k hk => groupBuilderSet_getChild_other _ _ _ _ hk, rfl,
      fun j hj => List.getElem?_set_ne (Ne.symm hj)⟩
    simp only [RenderNodeInfo.getOutputInfoByName, hfind,
      get_output_info_using_preflight_asset_id, hpf]
    rfl

/-- Witness for `getOutputInfo_substitutes_preflight_reference` on a
concrete node with a preflighted output. -/
theorem getOutputInfo_substitutes_preflight_reference_witness :
    (RenderNodeInfo.mk
        [("beauty",
          OutputAttrs.mk [("renderLocation", "up"), ("colorSpace", "lin")] [("o", "x")],
          "sc")]
        (Node.mk (some [("beauty", "work")]))).node.getPreflightParameter "beauty"
      = some "work" ∧
    (RenderNodeInfo.mk
        [("beauty",
          OutputAttrs.mk [("renderLocation", "up"), ("colorSpace", "lin")] [("o", "x")],
          "sc")]
        (Node.mk (some [("beauty", "work")]))).outputList[0]?
      = some ("beauty",
          OutputAttrs.mk [("renderLocation", "up"), ("colorSpace", "lin")] [("o", "x")],
          "sc") ∧
    find_output_entry
        (RenderNodeInfo.mk
          [("beauty",
            OutputAttrs.mk [("renderLocation", "up"), ("colorSpace", "lin")] [("o", "x")],
            "sc")]
          (Node.mk (some [("beauty", "work")]))).outputList "beauty"
      = some (0,
          OutputAttrs.mk [("renderLocation", "up"), ("colorSpace", "lin")] [("o", "x")],
          "sc") ∧
    paramGetChild
        (patchedOutputAttrs
          (OutputAttrs.mk [("renderLocation", "up"), ("colorSpace", "lin")] [("o", "x")])
          "work").locationSettings "renderLocation" = some "work" :=
  ⟨rfl, rfl, rfl,
   (getOutputInfo_substitutes_preflight_reference
      (fun _ => (0 : Nat)) (fun _ _ => (0 : Nat))
      (RenderNodeInfo.mk
        [("beauty",
          OutputAttrs.mk [("renderLocation", "up"), ("colorSpace", "lin")] [("o", "x")],
          "sc")]
        (Node.mk (some [("beauty", "work")])))
      0 0 "beauty"
      (OutputAttrs.mk [("renderLocation", "up"), ("colorSpace", "lin")] [("o", "x")])
      (OutputAttrs.mk [("renderLocation", "up"), ("colorSpace", "lin")] [("o", "x")])
      "sc" "sc" "work" rfl rfl rfl).1.2.1⟩

/-- C3: when an output has no `outputs.preflight.<name>` parameter, the
decorated `getOutputInfoByIndex` and `getOutputInfoByName` return exactly
what the undecorated original returns on the unmodified info object, with
no mutation of the output's attributes. -/
theorem getOutputInfo_no_preflight_delegates {R S : Type}
    (originalIdx : RenderNodeInfo → R) (originalName : RenderNodeInfo → String → S)
    (self : RenderNodeInfo) (index : Nat) (name : String)
    (attrs : OutputAttrs) (scope : String)
    (hpf : self.node.getPreflightParameter name = none)
    (hidx : self.outputList[index]? = some (name, attrs, scope)) :
    RenderNodeInfo.getOutputInfoByIndex originalIdx self index
      = some (self, originalIdx self) ∧
    RenderNodeInfo.getOutputInfoByName originalName self name
      = (self, originalName self name) := by
  constructor
  · simp only [RenderNodeInfo.getOutputInfoByIndex, hidx,
      get_output_info_using_preflight_asset_id, hpf]
    rw [list_set_getElem_self _ _ _ hidx]
  · cases hfind : find_output_entry self.outputList name with
    | none =>
      simp only [RenderNodeInfo.getOutputInfoByName, hfind]
    | some e =>
      obtain ⟨i, a, s⟩ := e
      have hspec := find_output_entry_spec self.outputList name i a s hfind
      simp only [RenderNodeInfo.getOutputInfoByName, hfind,
        get_output_info_using_preflight_asset_id, hpf]
      rw [list_set_getElem_self _ _ _ hspec]

/-- Witness for `getOutputInfo_no_preflight_delegates` on a concrete node
whose preflight group has no entry for the output. -/
theorem getOutputInfo_no_preflight_delegates_witness :
    (RenderNodeInfo.mk
        [("beauty", OutputAttrs.mk [("renderLocation", "up")] [], "sc")]
        (Node.mk (some [("depth", "work")]))).node.getPreflightParameter "beauty"
      = none ∧
    (RenderNodeInfo.mk
        [("beauty", OutputAttrs.mk [("renderLocation", "up")] [], "sc")]
        (Node.mk (some [("depth", "work")]))).outputList[0]?
      = some ("beauty", OutputAttrs.mk [("renderLocation", "up")] [], "sc") ∧
    (RenderNodeInfo.getOutputInfoByIndex (fun _ => (7 : Nat))
        (RenderNodeInfo.mk
          [("beauty", OutputAttrs.mk [("renderLocation", "up")] [], "sc")]
          (Node.mk (some [("depth", "work")]))) 0
      = some ((RenderNodeInfo.mk
          [("beauty", OutputAttrs.mk [("renderLocation", "up")] [], "sc")]
          (Node.mk (some [("depth", "work")]))), 7) ∧
     RenderNodeInfo.getOutputInfoByName (fun _ _ => (8 : Nat))
        (RenderNodeInfo.mk
          [("beauty", OutputAttrs.mk [("renderLocation", "up")] [], "sc")]
          (Node.mk (some [("depth", "work")]))) "beauty"
      = ((RenderNodeInfo.mk
          [("beauty", OutputAttrs.mk [("renderLocation", "up")] [], "sc")]
          (Node.mk (some [("depth", "work")]))), 8)) :=
  ⟨rfl, rfl,
   getOutputInfo_no_preflight_delegates (fun _ => (7 : Nat)) (fun _ _ => (8 : Nat))
     (RenderNodeInfo.mk
       [("beauty", OutputAttrs.mk [("renderLocation", "up")] [], "sc")]
       (Node.mk (some [("depth", "work")])))
     0 "beauty" (OutputAttrs.mk [("renderLocation", "up")] []) "sc" rfl rfl⟩

/-- C5: for a name absent from the output list, the decorated
`getOutputInfoByName` delegates straight to the original resolution — the
info object is not mutated, no preflight patching happens, and the
original's not-found error is returned verbatim. -/
theorem getOutputInfoByName_missing_name_propagates {R : Type}
    (original : RenderNodeInfo → String → Except String R)
    (self : RenderNodeInfo) (name e : String)
    (hnot : ∀ entry ∈ self.outputList, entry.1 ≠ name)
    (horig : original self name = Except.error e) :
    RenderNodeInfo.getOutputInfoByName original self name
      = (self, Except.error e) := by
  have hfind := find_output_entry_eq_none_of_not_mem self.outputList name hnot
  simp only [RenderNodeInfo.getOutputInfoByName, hfind, horig]

/-- Witness for `getOutputInfoByName_missing_name_propagates` at a concrete
name absent from the output list. -/
theorem getOutputInfoByName_missing_name_propagates_witness :
    (∀ entry ∈ (RenderNodeInfo.mk
        [("beauty", OutputAttrs.mk [("renderLocation", "up")] [], "sc")]
        (Node.mk (some [("depth", "work")]))).outputList,
      entry.1 ≠ "depth") ∧
    ((fun (_ : RenderNodeInfo) (n : String) =>
        (Except.error ("KeyError: " ++ n) : Except String Nat))
      (RenderNodeInfo.mk
        [("beauty", OutputAttrs.mk [("renderLocation", "up")] [], "sc")]
        (Node.mk (some [("depth", "work")]))) "depth"
      = Except.error "KeyError: depth") ∧
    RenderNodeInfo.getOutputInfoByName
        (fun (_ : RenderNodeInfo) (n : String) =>
          (Except.error ("KeyError: " ++ n) : Except String Nat))
        (RenderNodeInfo.mk
          [("beauty", OutputAttrs.mk [("renderLocation", "up")] [], "sc")]
          (Node.mk (some [("depth", "work")]))) "depth"
      = ((RenderNodeInfo.mk
          [("beauty", OutputAttrs.mk [("renderLocation", "up")] [], "sc")]
          (Node.mk (some [("depth", "work")]))), Except.error "KeyError: depth") :=
  ⟨by decide, rfl,
   getOutputInfoByName_missing_name_propagates
     (fun (_ : RenderNodeInfo) (n : String) =>
       (Except.error ("KeyError: " ++ n) : Except String Nat))
     (RenderNodeInfo.mk
       [("beauty", OutputAttrs.mk [("renderLocation", "up")] [], "sc")]
       (Node.mk (some [("depth", "work")])))
     "depth" "KeyError: depth" (by decide) rfl⟩

/-! ### The widget-delegate model (`OpenAssetIOWidgetDelegate.py`)

The external OpenAssetIO UI delegate is modelled by its `uiPolicy`
behaviour: a function from the requested trait set and access mode to the
policy `TraitsData` it returns.  Trait IDs are an enumeration of the
mediacreation traits the plugin imbues; a `TraitsData` is the list of
imbued trait IDs. -/

inductive TraitId
  | Inline
  | EntityProvider
  | Singular
  | Detached
  | Browser
  | InPlace
  | Managed
deriving DecidableEq, BEq

abbrev TraitsDataModel : Type := List TraitId

inductive UIAccess
  | kRead
  | kWrite
deriving DecidableEq

/-- `ManagedTrait.isImbuedTo(policy)`. -/
def ManagedTrait.isImbuedTo (policy : TraitsDataModel) : Bool :=
  policy.contains TraitId.Managed

/-- The external UI delegate, as far as the policy check observes it. -/
structure UIDelegateModel where
  uiPolicy : List TraitId → UIAccess → TraitsDataModel

/-- Trait set imbued by `createAssetControlWidget`: inline, entity
provider, singular, detached. -/
def control_widget_ui_traits : List TraitId :=
  [TraitId.Inline, TraitId.EntityProvider, TraitId.Singular, TraitId.Detached]

/-- Trait set imbued by `configureAssetBrowser`: browser, entity provider,
singular, in-place. -/
def browser_ui_traits : List TraitId :=
  [TraitId.Browser, TraitId.EntityProvider, TraitId.Singular, TraitId.InPlace]

/-- Which widget `createAssetControlWidget` produces. -/
inductive ControlWidgetResult
  | baseClassWidget
  | delegatedControlWidget
deriving DecidableEq

/-- `OpenKatanaAssetIOWidgetDelegate.createAssetControlWidget`.  Returns the
produced widget kind together with the number of `populateUI` invocations
on the external delegate during the call (the delegated branch constructs
an `OpenKatanaAssetIOControlWidget`, whose `buildWidgets` calls
`populateUI` once). -/
def createAssetControlWidget (ui_delegate : Option UIDelegateModel) :
    ControlWidgetResult × Nat :=
  match ui_delegate with
  | none => (ControlWidgetResult.baseClassWidget, 0)
  | some d =>
    let ui_access := UIAccess.kRead
    let ui_policy := d.uiPolicy control_widget_ui_traits ui_access
    if ¬ ManagedTrait.isImbuedTo ui_policy then
      (ControlWidgetResult.baseClassWidget, 0)
    else
      (ControlWidgetResult.delegatedControlWidget, 1)

/-- How `configureAssetBrowser` leaves the browser. -/
inductive BrowserConfigResult
  /-- No delegate available: a `SimpleTextBoxBrowser` tab is added. -/
  | defaultTextBoxBrowserTab
  /-- Policy not managed: early return, only base-class configuration. -/
  | baseConfiguredBrowserOnly
  /-- A delegated browser tab is added. -/
  | delegatedBrowserTab
deriving DecidableEq

/-- `OpenKatanaAssetIOWidgetDelegate.configureAssetBrowser`, down to the
policy gate.  `saveModeHint` models `HintTrue("saveMode", widget_hints)`
and `widgetHint` models `widget_hints.get("widget")`.  Returns the browser
configuration outcome together with the number of `populateUI` invocations
on the external delegate during the call. -/
def configureAssetBrowser (ui_delegate : Option UIDelegateModel)
    (saveModeHint : Bool) (widgetHint : Option String) :
    BrowserConfigResult × Nat :=
  match ui_delegate with
  | none => (BrowserConfigResult.defaultTextBoxBrowserTab, 0)
  | some d =>
    let isSave := saveModeHint || widgetHint == some "assetIdOutput"
    let ui_access := if isSave then UIAccess.kWrite else UIAccess.kRead
    let ui_policy := d.uiPolicy browser_ui_traits ui_access
    if ¬ ManagedTrait.isImbuedTo ui_policy then
      (BrowserConfigResult.baseConfiguredBrowserOnly, 0)
    else
      (BrowserConfigResult.delegatedBrowserTab, 1)

/-- C6: when the delegate's `uiPolicy` response does not carry the Managed
trait for the requested trait set, `createAssetControlWidget` falls back to
the base-class widget and `configureAssetBrowser` leaves only the
base-class browser configuration, and in both calls the delegate's
`populateUI` is invoked zero times. -/
theorem unmanaged_policy_takes_fallback_without_populate
    (d : UIDelegateModel) (saveModeHint : Bool) (widgetHint : Option String)
    (hcontrol : ManagedTrait.isImbuedTo
        (d.uiPolicy control_widget_ui_traits UIAccess.kRead) = false)
    (hbrowser : ManagedTrait.isImbuedTo
        (d.uiPolicy browser_ui_traits
          (if saveModeHint || widgetHint == some "assetIdOutput"
           then UIAccess.kWrite else UIAccess.kRead)) = false) :
    createAssetControlWidget (some d)
      = (ControlWidgetResult.baseClassWidget, 0) ∧
    configureAssetBrowser (some d) saveModeHint widgetHint
      = (BrowserConfigResult.baseConfiguredBrowserOnly, 0) := by
  constructor
  · simp only [createAssetControlWidget, hcontrol]
    rfl
  · simp only [configureAssetBrowser, hbrowser]
    rfl

/-- Witness for `unmanaged_policy_takes_fallback_without_populate` with a
delegate whose policy never declares the Managed trait. -/
theorem unmanaged_policy_takes_fallback_without_populate_witness :
    ManagedTrait.isImbuedTo
        ((UIDelegateModel.mk (fun _ _ => [])).uiPolicy
          control_widget_ui_traits UIAccess.kRead) = false ∧
    ManagedTrait.isImbuedTo
        ((UIDelegateModel.mk (fun _ _ => [])).uiPolicy browser_ui_traits
          (if false || (none : Option String) == some "assetIdOutput"
           then UIAccess.kWrite else UIAccess.kRead)) = false ∧
    (createAssetControlWidget (some (UIDelegateModel.mk (fun _ _ => [])))
      = (ControlWidgetResult.baseClassWidget, 0) ∧
     configureAssetBrowser (some (UIDelegateModel.mk (fun _ _ => []))) false none
      = (BrowserConfigResult.baseConfiguredBrowserOnly, 0)) :=
  ⟨rfl, rfl,
   unmanaged_policy_takes_fallback_without_populate
     (UIDelegateModel.mk (fun _ _ => [])) false none rfl rfl⟩

/-! ### UIDelegateService delegate caching -/

/-- The `UIDelegateService.__ui_delegate` slot: the `NotImplemented`
sentinel until the first load attempt, then the cached outcome (`none`
when loading failed). -/
inductive DelegateSlot
  | sentinel
  | cached (d : Option UIDelegateModel)

/-- Outcome of one attempt at
`UIDelegateFactory.defaultUIDelegateForInterface`: a delegate, an
`InputValidationException` (logged at debug level), or any other exception
(logged at error level). -/
inductive DelegateLoadResult
  | delegateLoaded (d : UIDelegateModel)
  | inputValidationException
  | otherException

/-- `UIDelegateService.ui_delegate`.  `load` is the environment's response
if a factory load is attempted during this call.  Returns the new slot
state, the value returned to the caller, and the number of factory load
attempts made during the call. -/
def UIDelegateService.ui_delegate (load : DelegateLoadResult)
    (slot : DelegateSlot) : DelegateSlot × Option UIDelegateModel × Nat :=
  match slot with
  | DelegateSlot.cached d => (DelegateSlot.cached d, d, 0)
  | DelegateSlot.sentinel =>
    match load with
    | DelegateLoadResult.delegateLoaded d =>
      (DelegateSlot.cached (some d), some d, 1)
    | DelegateLoadResult.inputValidationException =>
      (DelegateSlot.cached none, none, 1)
    | DelegateLoadResult.otherException =>
      (DelegateSlot.cached none, none, 1)

/-- Total number of factory load attempts over a sequence of
`ui_delegate()` calls, threading the slot state. -/
def ui_delegate_load_attempts : List DelegateLoadResult → DelegateSlot → Nat
  | [], _ => 0
  | load :: rest, slot =>
    (UIDelegateService.ui_delegate load slot).2.2
      + ui_delegate_load_attempts rest (UIDelegateService.ui_delegate load slot).1

theorem ui_delegate_load_attempts_cached (loads : List DelegateLoadResult)
    (d : Option UIDelegateModel) :
    ui_delegate_load_attempts loads (DelegateSlot.cached d) = 0 := by
  induction loads with
  | nil => rfl
  | cons load rest ih =>
    simp only [ui_delegate_load_attempts, UIDelegateService.ui_delegate, ih]

/-- C10: the first `ui_delegate()` call on a fresh service attempts the
factory load exactly once and caches the outcome — the loaded delegate on
success, `None` on either exception; every later call returns the cached
value with zero further load attempts (in particular a failed load is
never retried), so any call sequence from a fresh service makes exactly
one load attempt. -/
theorem ui_delegate_loads_at_most_once (load : DelegateLoadResult)
    (loads : List DelegateLoadResult) (d : UIDelegateModel)
    (v : Option UIDelegateModel) :
    (UIDelegateService.ui_delegate (DelegateLoadResult.delegateLoaded d)
        DelegateSlot.sentinel
      = (DelegateSlot.cached (some d), some d, 1)) ∧
    (UIDelegateService.ui_delegate DelegateLoadResult.inputValidationException
        DelegateSlot.sentinel
      = (DelegateSlot.cached none, none, 1)) ∧
    (UIDelegateService.ui_delegate DelegateLoadResult.otherException
        DelegateSlot.sentinel
      = (DelegateSlot.cached none, none, 1)) ∧
    (UIDelegateService.ui_delegate load (DelegateSlot.cached v)
      = (DelegateSlot.cached v, v, 0)) ∧
    ui_delegate_load_attempts (load :: loads) DelegateSlot.sentinel = 1 := by
  refine ⟨rfl, rfl, rfl, rfl, ?_⟩
  cases load with
  | delegateLoaded d0 =>
    simp only [ui_delegate_load_attempts, UIDelegateService.ui_delegate,
      ui_delegate_load_attempts_cached]
  | inputValidationException =>
    simp only [ui_delegate_load_attempts, UIDelegateService.ui_delegate,
      ui_delegate_load_attempts_cached]
  | otherException =>
    simp only [ui_delegate_load_attempts, UIDelegateService.ui_delegate,
      ui_delegate_load_attempts_cached]

/-! ### The render-output widget state machine
(`OpenKatanaAssetIOAssetRenderWidget`) -/

/-- Widget state relevant to the preflight check:
`__is_using_preflight_asset_id`, `None` until lazily initialised. -/
structure AssetRenderWidgetState where
  is_using_preflight_asset_id : Option Bool
deriving DecidableEq

/-- `OpenKatanaAssetIOAssetRenderWidget.__maybe_update_parent_if_preflight_state_changed`.

Reads the freshly observed preflight state
(`bool(node.getParameter("outputs.preflight.<output_name>"))`), initialises
the last-known state on the first run, and otherwise requests one
`manualSyncIncoming()` on the parent editor iff the observed state differs
from the last-known state.  Returns the new widget state, the number of
`manualSyncIncoming` requests issued, and the function's boolean result. -/
def maybe_update_parent_if_preflight_state_changed (node : Node)
    (output_name : String) (w : AssetRenderWidgetState) :
    AssetRenderWidgetState × Nat × Bool :=
  let is_using_preflight_asset_id :=
    (node.getPreflightParameter output_name).isSome
  match w.is_using_preflight_asset_id with
  | none =>
    (AssetRenderWidgetState.mk (some is_using_preflight_asset_id), 0, false)
  | some last_known =>
    if is_using_preflight_asset_id ≠ last_known then
      (w, 1, true)
    else
      (w, 0, false)

/-- Total `manualSyncIncoming` requests over `n` repeated checks against an
unchanged node. -/
def repeated_preflight_checks (node : Node) (output_name : String) :
    Nat → AssetRenderWidgetState → Nat
  | 0, _ => 0
  | n + 1, w =>
    (maybe_update_parent_if_preflight_state_changed node output_name w).2.1
      + repeated_preflight_checks node output_name n
          (maybe_update_parent_if_preflight_state_changed node output_name w).1

/-- C7: after initialisation, one state check issues exactly one
`manualSyncIncoming` request when the freshly observed preflight state
differs from the last-known state and zero when it matches; and any number
of repeated checks whose observation matches the stored state issue zero
requests in total. -/
theorem preflight_state_check_sync_requests (node : Node)
    (output_name : String) (last_known : Bool) (n : Nat) :
    ((maybe_update_parent_if_preflight_state_changed node output_name
        (AssetRenderWidgetState.mk (some last_known))).2.1
      = if (node.getPreflightParameter output_name).isSome = last_known
        then 0 else 1) ∧
    repeated_preflight_checks node output_name n
        (AssetRenderWidgetState.mk
          (some (node.getPreflightParameter output_name).isSome))
      = 0 := by
  constructor
  · by_cases h : (node.getPreflightParameter output_name).isSome = last_known
    · simp [maybe_update_parent_if_preflight_state_changed, h]
    · simp [maybe_update_parent_if_preflight_state_changed, h]
  · induction n with
    | zero => rfl
    | succ m ih =>
      simp only [repeated_preflight_checks,
        maybe_update_parent_if_preflight_state_changed, ne_eq,
        not_true_eq_false, if_false, ih]

/-- `OpenKatanaAssetIOAssetRenderWidget.__on_reset_button_clicked`.

`render_node_editor_widget_reachable` models whether
`self.__render_node_editor_widget()` returns a truthy widget;
`output_name` models `self.getOutputInfo().get("name")`.  Returns the
node's parameter state after the click and the number of
`manualSyncIncoming` requests issued. -/
def on_reset_button_clicked (render_node_editor_widget_reachable : Bool)
    (node : Node) (output_name : Option String) : Node × Nat :=
  if ¬ render_node_editor_widget_reachable then (node, 0)
  else
    match node.preflight with
    | none => (node, 0)
    | some preflight_param =>
      match output_name with
      | none => (node, 0)
      | some name =>
        match paramGetChild preflight_param name with
        | none => (node, 0)
        | some _ =>
          (Node.mk (some (paramDeleteChild preflight_param name)), 1)

/-- C8: with a reachable parent editor and an existing preflight entry for
this widget's output, the reset click deletes exactly that entry (the
entry is gone, entries for other names are unchanged) and issues exactly
one `manualSyncIncoming` request. -/
theorem reset_click_deletes_entry_and_syncs_once (node : Node)
    (g : ParamGroup) (name v : String)
    (hg : node.preflight = some g)
    (hnodup : paramKeysNodup g)
    (hentry : paramGetChild g name = some v) :
    on_reset_button_clicked true node (some name)
      = (Node.mk (some (paramDeleteChild g name)), 1) ∧
    (Node.mk (some (paramDeleteChild g name))).getPreflightParameter name = none ∧
    (∀ m, m ≠ name →
      (Node.mk (some (paramDeleteChild g name))).getPreflightParameter m
        = node.getPreflightParameter m) := by
  refine ⟨?_, ?_, ?_⟩
  · simp only [on_reset_button_clicked, hg, hentry]
    rfl
  · simp only [Node.getPreflightParameter]
    exact paramGetChild_deleteChild_self g name hnodup
  · intro m hm
    simp only [Node.getPreflightParameter, hg]
    exact paramGetChild_deleteChild_other g name m hm

/-- Witness for `reset_click_deletes_entry_and_syncs_once` on a concrete
two-entry preflight group. -/
theorem reset_click_deletes_entry_and_syncs_once_witness :
    (Node.mk (some [("beauty", "w1"), ("depth", "w2")])).preflight
      = some [("beauty", "w1"), ("depth", "w2")] ∧
    paramKeysNodup [("beauty", "w1"), ("depth", "w2")] ∧
    paramGetChild [("beauty", "w1"), ("depth", "w2")] "depth" = some "w2" ∧
    (on_reset_button_clicked true
        (Node.mk (some [("beauty", "w1"), ("depth", "w2")])) (some "depth")
      = (Node.mk (some (paramDeleteChild [("beauty", "w1"), ("depth", "w2")] "depth")), 1) ∧
     (Node.mk (some (paramDeleteChild [("beauty", "w1"), ("depth", "w2")] "depth"))).getPreflightParameter "depth" = none ∧
     (∀ m, m ≠ "depth" →
       (Node.mk (some (paramDeleteChild [("beauty", "w1"), ("depth", "w2")] "depth"))).getPreflightParameter m
         = (Node.mk (some [("beauty", "w1"), ("depth", "w2")])).getPreflightParameter m)) :=
  ⟨rfl, by decide, rfl,
   reset_click_deletes_entry_and_syncs_once
     (Node.mk (some [("beauty", "w1"), ("depth", "w2")]))
     [("beauty", "w1"), ("depth", "w2")] "depth" "w2" rfl (by decide) rfl⟩

/-- C9: if any precondition of the reset action is missing — unreachable
parent editor, no `outputs.preflight` group, no output name, or no
preflight entry for this output's name — the click leaves the node's
parameter state unchanged and issues zero `manualSyncIncoming`
requests. -/
theorem reset_click_without_preconditions_is_noop
    (render_node_editor_widget_reachable : Bool) (node : Node)
    (output_name : Option String)
    (h : render_node_editor_widget_reachable = false
      ∨ node.preflight = none
      ∨ output_name = none
      ∨ ∃ g name, node.preflight = some g ∧ output_name = some name
          ∧ paramGetChild g name = none) :
    on_reset_button_clicked render_node_editor_widget_reachable node output_name
      = (node, 0) := by
  rcases h with h | h | h | ⟨g, name, hg, hn, hmiss⟩
  · simp [on_reset_button_clicked, h]
  · cases hr : render_node_editor_widget_reachable with
    | false => simp [on_reset_button_clicked]
    | true => simp [on_reset_button_clicked, h]
  · cases hr : render_node_editor_widget_reachable with
    | false => simp [on_reset_button_clicked]
    | true =>
      simp only [on_reset_button_clicked, h]
      cases node.preflight <;> rfl
  · cases hr : render_node_editor_widget_reachable with
    | false => simp [on_reset_button_clicked]
    | true => simp [on_reset_button_clicked, hg, hn, hmiss]

/-- Witness for `reset_click_without_preconditions_is_noop`: a preflight
group that has no entry for this output's name. -/
theorem reset_click_without_preconditions_is_noop_witness :
    (true = false
      ∨ (Node.mk (some [("beauty", "w1")])).preflight = none
      ∨ (some "depth" : Option String) = none
      ∨ ∃ g name, (Node.mk (some [("beauty", "w1")])).preflight = some g
          ∧ (some "depth" : Option String) = some name
          ∧ paramGetChild g name = none) ∧
    on_reset_button_clicked true (Node.mk (some [("beauty", "w1")])) (some "depth")
      = (Node.mk (some [("beauty", "w1")]), 0) :=
  ⟨Or.inr (Or.inr (Or.inr ⟨[("beauty", "w1")], "depth", rfl, rfl, rfl⟩)),
   reset_click_without_preconditions_is_noop true
     (Node.mk (some [("beauty", "w1")])) (some "depth")
     (Or.inr (Or.inr (Or.inr ⟨[("beauty", "w1")], "depth", rfl, rfl, rfl⟩)))⟩
